import Mathlib

/-!
Shallow embedding of the Adafruit_AW9523 driver (src/Adafruit_AW9523.cpp).

The device and bus are modelled as a register file indexed by byte
address together with a per-address write-acknowledge oracle and a flag
for transport open.  The BusIO collaborators (Adafruit_I2CRegister and
Adafruit_I2CRegisterBits) are modelled from the spec's RegisterView and
BitField contracts: a width-2 register with least-significant-byte-first
order occupies two consecutive addresses, and a bit field performs a
read-modify-write of the whole underlying register.
-/

namespace AW9523

/-- Device and transport state: one byte-addressed register file,
a write-acknowledge oracle keyed by transaction base address, and
whether opening the transport at the device address succeeds. -/
structure BusState where
  regs : Nat → Nat
  writeOk : Nat → Bool
  devOk : Bool

/-- Pointwise update of the register file at one address. -/
def setReg (f : Nat → Nat) (a v : Nat) : Nat → Nat :=
  fun x => if x = a then v else f x

/-- RegisterView descriptor: base address and byte width (1 or 2);
all width-2 uses in the source are least-significant-byte first. -/
structure I2CRegister where
  addr : Nat
  width : Nat

/-- Complement over a 32-bit word, as C integer promotion produces when
a 16-bit value is complemented and passed to a 32-bit write. -/
def compl32 (x : Nat) : Nat := (2 ^ 32 - 1) ^^^ x

/-- RegisterView read: assemble width bytes starting at the base
address, least-significant byte first. -/
def regRead (s : BusState) (r : I2CRegister) : Nat :=
  if r.width = 1 then s.regs r.addr &&& 255
  else if r.width = 2 then
    (s.regs r.addr &&& 255) ||| ((s.regs (r.addr + 1) &&& 255) <<< 8)
  else 0

/-- RegisterView write: store the low width bytes of the value at
consecutive addresses, least-significant byte first; the transaction is
acknowledged according to the oracle at the base address, and an
unacknowledged transaction leaves the register file unchanged. -/
def regWrite (s : BusState) (r : I2CRegister) (v : Nat) : BusState × Bool :=
  if s.writeOk r.addr then
    if r.width = 1 then
      ({ s with regs := setReg s.regs r.addr (v &&& 255) }, true)
    else if r.width = 2 then
      ({ s with regs :=
          setReg (setReg s.regs r.addr (v &&& 255)) (r.addr + 1) ((v >>> 8) &&& 255) }, true)
    else (s, true)
  else (s, false)

/-- BitField write (Adafruit_I2CRegisterBits::write): read the full
register, clear the field through a complemented 32-bit mask, OR the
new value shifted into place, and write the full register back. -/
def bitsWrite (s : BusState) (r : I2CRegister) (bits shift v : Nat) : BusState × Bool :=
  let cur := regRead s r
  let nv := (cur &&& compl32 ((2 ^ bits - 1) <<< shift)) ||| (v <<< shift)
  regWrite s r nv

/-- BitField read (Adafruit_I2CRegisterBits::read): shift the full
register value down and mask to the field width. -/
def bitsRead (s : BusState) (r : I2CRegister) (bits shift : Nat) : Nat :=
  (regRead s r >>> shift) &&& (2 ^ bits - 1)

/-- Modelled from the spec: register addresses come from the repository
header Adafruit_AW9523.h, which is not under src/; the spec fixes the
register map as byte-exact for hardware compatibility (port pairs per
function, chip id, global control, soft reset), giving the standard
AW9523 map. Input port 0. -/
def AW9523_REG_INPUT0 : Nat := 0x00

/-- Modelled from the spec: input port 1 register address. -/
def AW9523_REG_INPUT1 : Nat := 0x01

/-- Modelled from the spec: output port 0 register address. -/
def AW9523_REG_OUTPUT0 : Nat := 0x02

/-- Modelled from the spec: output port 1 register address. -/
def AW9523_REG_OUTPUT1 : Nat := 0x03

/-- Modelled from the spec: direction configuration register, port 0. -/
def AW9523_REG_CONFIG0 : Nat := 0x04

/-- Modelled from the spec: direction configuration register, port 1. -/
def AW9523_REG_CONFIG1 : Nat := 0x05

/-- Modelled from the spec: interrupt-enable register, port 0. -/
def AW9523_REG_INTENABLE0 : Nat := 0x06

/-- Modelled from the spec: interrupt-enable register, port 1. -/
def AW9523_REG_INTENABLE1 : Nat := 0x07

/-- Modelled from the spec: chip identity register address. -/
def AW9523_REG_CHIPID : Nat := 0x10

/-- Modelled from the spec: global control register address. -/
def AW9523_REG_GCR : Nat := 0x11

/-- Modelled from the spec: LED-mode switch register, port 0. -/
def AW9523_REG_LEDMODE0 : Nat := 0x12

/-- Modelled from the spec: LED-mode switch register, port 1. -/
def AW9523_REG_LEDMODE1 : Nat := 0x13

/-- Modelled from the spec: soft-reset register address. -/
def AW9523_REG_SOFTRESET : Nat := 0x7F

/-- Modelled from the spec: the INPUT pin-mode constant exposed to the
host (from the external Arduino headers); only its distinctness from
the other two mode constants matters. -/
def INPUT : Nat := 0

/-- Modelled from the spec: the OUTPUT pin-mode constant exposed to the
host (from the external Arduino headers). -/
def OUTPUT : Nat := 1

/-- Modelled from the spec: the constant-current LED pin-mode constant
from the repository header, distinct from INPUT and OUTPUT. -/
def AW9523_LED_MODE : Nat := 0x99

/-- Adafruit_AW9523::reset — write 0 to the soft-reset register. -/
def reset (s : BusState) : BusState × Bool :=
  regWrite s ⟨AW9523_REG_SOFTRESET, 1⟩ 0

/-- Adafruit_AW9523::outputGPIO — two width-2 LSB-first writes of the
same 16-bit argument, based at OUTPUT0 and at OUTPUT1, with
short-circuit on the first failure. -/
def outputGPIO (s : BusState) (pins : Nat) : BusState × Bool :=
  let w0 := regWrite s ⟨AW9523_REG_OUTPUT0, 2⟩ pins
  if !w0.2 then (w0.1, false) else
  let w1 := regWrite w0.1 ⟨AW9523_REG_OUTPUT1, 2⟩ pins
  if !w1.2 then (w1.1, false) else (w1.1, true)

/-- Adafruit_AW9523::inputGPIO — (input1.read() shifted left 8) ORed
with input0.read(), truncated to the 16-bit return type. -/
def inputGPIO (s : BusState) : Nat :=
  ((regRead s ⟨AW9523_REG_INPUT1, 2⟩ <<< 8) ||| regRead s ⟨AW9523_REG_INPUT0, 2⟩) &&& 65535

/-- Adafruit_AW9523::interruptEnableGPIO — complemented width-2 writes
based at INTENABLE0 and INTENABLE1. -/
def interruptEnableGPIO (s : BusState) (pins : Nat) : BusState × Bool :=
  let w0 := regWrite s ⟨AW9523_REG_INTENABLE0, 2⟩ (compl32 pins)
  if !w0.2 then (w0.1, false) else
  let w1 := regWrite w0.1 ⟨AW9523_REG_INTENABLE1, 2⟩ (compl32 (pins >>> 8))
  if !w1.2 then (w1.1, false) else (w1.1, true)

/-- Adafruit_AW9523::configureDirection — complemented width-2 writes
based at CONFIG0 and CONFIG1. -/
def configureDirection (s : BusState) (pins : Nat) : BusState × Bool :=
  let w0 := regWrite s ⟨AW9523_REG_CONFIG0, 2⟩ (compl32 pins)
  if !w0.2 then (w0.1, false) else
  let w1 := regWrite w0.1 ⟨AW9523_REG_CONFIG1, 2⟩ (compl32 (pins >>> 8))
  if !w1.2 then (w1.1, false) else (w1.1, true)

/-- Target register selection in Adafruit_AW9523::analogWrite: the
local variable reg starts uninitialized (modelled as none) and each of
the three inclusive range checks assigns it. -/
def analogWriteReg (pin : Nat) : Option Nat :=
  let r : Option Nat := none
  let r := if pin ≤ 7 then some (0x24 + pin) else r
  let r := if 8 ≤ pin ∧ pin ≤ 11 then some (0x20 + pin - 8) else r
  let r := if 12 ≤ pin ∧ pin ≤ 15 then some (0x2C + pin - 12) else r
  r

/-- Adafruit_AW9523::analogWrite — single-byte write of the value to
the selected dimming register; none when the register selection is left
uninitialized. -/
def analogWrite (s : BusState) (pin val : Nat) : Option BusState :=
  (analogWriteReg pin).map fun a => (regWrite s ⟨a, 1⟩ val).1

/-- Adafruit_AW9523::digitalWrite — one-bit field write at bit
position pin over the width-2 view based at OUTPUT0. -/
def digitalWrite (s : BusState) (pin : Nat) (v : Bool) : BusState :=
  (bitsWrite s ⟨AW9523_REG_OUTPUT0, 2⟩ 1 pin (if v then 1 else 0)).1

/-- Adafruit_AW9523::digitalRead — one-bit field read over the width-2
view based at INPUT0 with shift pin, or based at INPUT1 with shift
pin - 8 for pins 8 and up; nonzero field value means true. -/
def digitalRead (s : BusState) (pin : Nat) : Bool :=
  let r : I2CRegister :=
    if pin ≥ 8 then ⟨AW9523_REG_INPUT1, 2⟩ else ⟨AW9523_REG_INPUT0, 2⟩
  let outPin := if pin ≥ 8 then pin - 8 else pin
  bitsRead s r 1 outPin != 0

/-- Adafruit_AW9523::enableInterrupt — one-bit field write of the
complemented flag, over the width-2 view based at INTENABLE0, or based
at INTENABLE1 for pins 8 and up; the bit shift stays pin in both
branches. -/
def enableInterrupt (s : BusState) (pin : Nat) (en : Bool) : BusState :=
  let r : I2CRegister :=
    if pin ≥ 8 then ⟨AW9523_REG_INTENABLE1, 2⟩ else ⟨AW9523_REG_INTENABLE0, 2⟩
  (bitsWrite s r 1 pin (if en then 0 else 1)).1

/-- Adafruit_AW9523::pinMode — direction and LED-mode one-bit field
writes for the pin's port, with stored (already inverted) bit values
per mode; an unrecognized mode value matches none of the three
conditionals and performs no write. -/
def pinMode (s : BusState) (pin mode : Nat) : BusState :=
  let confreg : I2CRegister :=
    if pin ≥ 8 then ⟨AW9523_REG_CONFIG1, 2⟩ else ⟨AW9523_REG_CONFIG0, 2⟩
  let ledmodereg : I2CRegister :=
    if pin ≥ 8 then ⟨AW9523_REG_LEDMODE1, 2⟩ else ⟨AW9523_REG_LEDMODE0, 2⟩
  let outPin := if pin ≥ 8 then pin - 8 else pin
  let s1 :=
    if mode = OUTPUT then
      (bitsWrite (bitsWrite s confreg 1 outPin 0).1 ledmodereg 1 outPin 1).1
    else s
  let s2 :=
    if mode = INPUT then
      (bitsWrite (bitsWrite s1 confreg 1 outPin 1).1 ledmodereg 1 outPin 1).1
    else s1
  let s3 :=
    if mode = AW9523_LED_MODE then
      (bitsWrite (bitsWrite s2 confreg 1 outPin 0).1 ledmodereg 1 outPin 0).1
    else s2
  s3

/-- Adafruit_AW9523::openDrainPort0 — one-bit field write of the
complemented flag at bit 4 of the width-1 global control register. -/
def openDrainPort0 (s : BusState) (od : Bool) : BusState × Bool :=
  bitsWrite s ⟨AW9523_REG_GCR, 1⟩ 1 4 (if od then 0 else 1)

/-- Adafruit_AW9523::begin — transport open, soft reset, identity
check, then configureDirection(0), openDrainPort0(false) and
interruptEnableGPIO(0) with their results discarded. -/
def begin (s : BusState) : BusState × Bool :=
  if !s.devOk then (s, false) else
  let r := reset s
  if !r.2 then (r.1, false) else
  if regRead r.1 ⟨AW9523_REG_CHIPID, 1⟩ = 0x23 then
    let s2 := (configureDirection r.1 0).1
    let s3 := (openDrainPort0 s2 false).1
    let s4 := ( interruptEnableGPIO s3 0).1
    (s4, true)
  else (r.1, false)

/-- Loopback register model from the spec's testable properties: each
input register byte mirrors the corresponding output register byte. -/
def loopback (s : BusState) : BusState :=
  { s with regs := fun a =>
      if a = AW9523_REG_INPUT0 then s.regs AW9523_REG_OUTPUT0
      else if a = AW9523_REG_INPUT1 then s.regs AW9523_REG_OUTPUT1
      else s.regs a }

/-- Recorded output bit of one pin: bit q of the 16-bit value held by
the output register pair. -/
def outputBit (s : BusState) (q : Nat) : Bool :=
  Nat.testBit (regRead s ⟨AW9523_REG_OUTPUT0, 2⟩) q

/-- All-zero register file with an always-acknowledging bus. -/
def zeroState : BusState :=
  { regs := fun _ => 0, writeOk := fun _ => true, devOk := true }

/-- All-ones register file with an always-acknowledging bus. -/
def onesState : BusState :=
  { regs := fun _ => 255, writeOk := fun _ => true, devOk := true }

/-- State whose identity register holds the chip signature but whose
bus refuses writes to the global control register. -/
def gcrNakState : BusState :=
  { regs := fun a => if a = AW9523_REG_CHIPID then 0x23 else 0,
    writeOk := fun a => a != AW9523_REG_GCR, devOk := true }

lemma setReg_self (f : Nat → Nat) (a v : Nat) : setReg f a v a = v := by
  simp [setReg]

lemma setReg_other (f : Nat → Nat) (a v x : Nat) (h : x ≠ a) : setReg f a v x = f x := by
  simp [setReg, h]

lemma testBit_one_iff (i : Nat) : Nat.testBit 1 i = decide (i = 0) := by
  have h : (1 : Nat) = 2 ^ 0 := rfl
  rw [h, Nat.testBit_two_pow]
  simp [eq_comm]

lemma testBit_and_255 (x i : Nat) :
    Nat.testBit (x &&& 255) i = (Nat.testBit x i && decide (i < 8)) := by
  have h : (255 : Nat) = 2 ^ 8 - 1 := rfl
  rw [Nat.testBit_and, h, Nat.testBit_two_pow_sub_one]

lemma testBit_compl32 (x q : Nat) (hq : q < 32) :
    Nat.testBit (compl32 x) q = !(Nat.testBit x q) := by
  unfold compl32
  rw [Nat.testBit_xor, Nat.testBit_two_pow_sub_one]
  simp [hq]

lemma testBit_field1 (cur p v q : Nat) (hv : v < 2) (hq : q < 32) :
    Nat.testBit ((cur &&& compl32 ((2 ^ 1 - 1) <<< p)) ||| (v <<< p)) q
      = if q = p then decide (v = 1) else Nat.testBit cur q := by
  have h1 : ((2 : Nat) ^ 1 - 1) = 1 := rfl
  rw [h1, Nat.testBit_or, Nat.testBit_and, testBit_compl32 _ _ hq, Nat.testBit_shiftLeft,
      Nat.testBit_shiftLeft, testBit_one_iff]
  interval_cases v <;> by_cases h : q = p
  · subst h; simp
  · have hb : (decide (q ≥ p) && decide (q - p = 0)) = false := by
      simp only [Bool.and_eq_false_iff, decide_eq_false_iff_not]
      omega
    simp [hb, h]
  · subst h; simp
  · have hb : (decide (q ≥ p) && decide (q - p = 0)) = false := by
      simp only [Bool.and_eq_false_iff, decide_eq_false_iff_not]
      omega
    simp only [testBit_one_iff]
    rw [hb]
    simp [h]

lemma testBit_assemble_lo (lo hi q : Nat) (hq : q < 8) :
    Nat.testBit ((lo &&& 255) ||| ((hi &&& 255) <<< 8)) q = Nat.testBit lo q := by
  rw [Nat.testBit_or, testBit_and_255, Nat.testBit_shiftLeft, testBit_and_255]
  simp [hq, show ¬ (8 ≤ q) by omega]

lemma testBit_assemble_hi (lo hi q : Nat) (hq : q < 8) :
    Nat.testBit ((lo &&& 255) ||| ((hi &&& 255) <<< 8)) (8 + q) = Nat.testBit hi q := by
  rw [Nat.testBit_or, testBit_and_255, Nat.testBit_shiftLeft, testBit_and_255]
  simp [hq, show ¬ (8 + q < 8) by omega, show 8 ≤ 8 + q by omega,
    show 8 + q - 8 = q by omega]

lemma testBit_lo_byte (x q : Nat) (hq : q < 8) :
    Nat.testBit (x &&& 255) q = Nat.testBit x q := by
  rw [testBit_and_255]; simp [hq]

lemma testBit_hi_byte (x q : Nat) (hq : q < 8) :
    Nat.testBit ((x >>> 8) &&& 255) q = Nat.testBit x (8 + q) := by
  rw [testBit_and_255, Nat.testBit_shiftRight]; simp [hq]

lemma bitsRead_bit (s : BusState) (r : I2CRegister) (sh : Nat) :
    (bitsRead s r 1 sh != 0) = Nat.testBit (regRead s r) sh := by
  unfold bitsRead
  have h1 : ((2 : Nat) ^ 1 - 1) = 1 := rfl
  rw [h1, Nat.and_comm]
  rfl

lemma regRead1 (s : BusState) (a : Nat) : regRead s ⟨a, 1⟩ = s.regs a &&& 255 := by
  simp [regRead]

lemma regRead2 (s : BusState) (a : Nat) :
    regRead s ⟨a, 2⟩ = (s.regs a &&& 255) ||| ((s.regs (a + 1) &&& 255) <<< 8) := by
  simp [regRead]

lemma bitsWrite2_regs (s : BusState) (a sh vb : Nat) (hw : s.writeOk a = true) :
    ((bitsWrite s ⟨a, 2⟩ 1 sh vb).1).regs =
      setReg (setReg s.regs a
          (((regRead s ⟨a, 2⟩ &&& compl32 ((2 ^ 1 - 1) <<< sh)) ||| (vb <<< sh)) &&& 255))
        (a + 1)
        ((((regRead s ⟨a, 2⟩ &&& compl32 ((2 ^ 1 - 1) <<< sh)) ||| (vb <<< sh)) >>> 8) &&& 255) := by
  simp [bitsWrite, regWrite, hw]

lemma bitsWrite2_bits (s : BusState) (a sh vb : Nat) (hv : vb < 2) (hw : s.writeOk a = true) :
    (∀ q, q < 8 → Nat.testBit (((bitsWrite s ⟨a, 2⟩ 1 sh vb).1).regs a) q
        = if q = sh then decide (vb = 1) else Nat.testBit (regRead s ⟨a, 2⟩) q) ∧
    (∀ q, q < 8 → Nat.testBit (((bitsWrite s ⟨a, 2⟩ 1 sh vb).1).regs (a + 1)) q
        = if 8 + q = sh then decide (vb = 1) else Nat.testBit (regRead s ⟨a, 2⟩) (8 + q)) ∧
    (∀ x, x ≠ a → x ≠ a + 1 → ((bitsWrite s ⟨a, 2⟩ 1 sh vb).1).regs x = s.regs x) := by
  rw [bitsWrite2_regs s a sh vb hw]
  refine ⟨?_, ?_, ?_⟩
  · intro q hq
    rw [setReg_other _ _ _ _ (by omega), setReg_self, testBit_lo_byte _ _ hq,
      testBit_field1 _ _ _ _ hv (by omega)]
  · intro q hq
    rw [setReg_self, testBit_hi_byte _ _ hq, testBit_field1 _ _ _ _ hv (by omega)]
  · intro x hx1 hx2
    rw [setReg_other _ _ _ _ hx2, setReg_other _ _ _ _ hx1]

lemma bitsWrite1_regs (s : BusState) (a sh vb : Nat) (hw : s.writeOk a = true) :
    ((bitsWrite s ⟨a, 1⟩ 1 sh vb).1).regs =
      setReg s.regs a
        (((regRead s ⟨a, 1⟩ &&& compl32 ((2 ^ 1 - 1) <<< sh)) ||| (vb <<< sh)) &&& 255) := by
  simp [bitsWrite, regWrite, hw]

lemma bitsWrite1_bits (s : BusState) (a sh vb : Nat) (hv : vb < 2) (hw : s.writeOk a = true) :
    (∀ q, q < 8 → Nat.testBit (((bitsWrite s ⟨a, 1⟩ 1 sh vb).1).regs a) q
        = if q = sh then decide (vb = 1) else Nat.testBit (s.regs a) q) ∧
    (∀ x, x ≠ a → ((bitsWrite s ⟨a, 1⟩ 1 sh vb).1).regs x = s.regs x) := by
  rw [bitsWrite1_regs s a sh vb hw]
  refine ⟨?_, ?_⟩
  · intro q hq
    rw [setReg_self, testBit_lo_byte _ _ hq, testBit_field1 _ _ _ _ hv (by omega),
      regRead1, testBit_lo_byte _ _ hq]
  · intro x hx
    rw [setReg_other _ _ _ _ hx]

lemma configureDirection_state (s : BusState) (m : Nat)
    (h4 : s.writeOk 4 = true) (h5 : s.writeOk 5 = true) :
    (configureDirection s m).1 = { s with regs :=
      (setReg (setReg (setReg (setReg s.regs 4 (compl32 m &&& 255))
        5 ((compl32 m >>> 8) &&& 255))
        5 (compl32 (m >>> 8) &&& 255))
        6 ((compl32 (m >>> 8) >>> 8) &&& 255)) } := by
  simp [configureDirection, regWrite, AW9523_REG_CONFIG0, AW9523_REG_CONFIG1, h4, h5]

lemma compl32_hi_byte (x : Nat) (hx : x < 256) : (compl32 x >>> 8) &&& 255 = 255 := by
  apply Nat.eq_of_testBit_eq
  intro i
  by_cases hi : i < 8
  · have h2 : (256 : Nat) ≤ 2 ^ (8 + i) := by
      have h3 : (2 : Nat) ^ 8 ≤ 2 ^ (8 + i) := Nat.pow_le_pow_right (by norm_num) (by omega)
      norm_num at h3
      exact h3
    have h1 : Nat.testBit x (8 + i) = false := Nat.testBit_lt_two_pow (by omega)
    rw [testBit_and_255, Nat.testBit_shiftRight, testBit_compl32 _ _ (by omega), h1,
      show (255 : Nat) = 2 ^ 8 - 1 from rfl, Nat.testBit_two_pow_sub_one]
    simp [hi]
  · rw [testBit_and_255, show (255 : Nat) = 2 ^ 8 - 1 from rfl, Nat.testBit_two_pow_sub_one]
    simp [hi]

lemma compl32_byte (x : Nat) : compl32 x &&& 255 = (x ^^^ 65535) &&& 255 := by
  apply Nat.eq_of_testBit_eq
  intro i
  rw [testBit_and_255, testBit_and_255]
  by_cases hi : i < 8
  · rw [testBit_compl32 _ _ (by omega), Nat.testBit_xor,
      show (65535 : Nat) = 2 ^ 16 - 1 from rfl, Nat.testBit_two_pow_sub_one]
    simp [show i < 16 by omega]
  · simp [hi]

/-- Claim C1: the spec asserts that outputGPIO(m) followed by
inputGPIO() on a loopback register model returns exactly m for every
16-bit m.  The code refutes this: both width-2 writes place the low
byte of m at their base address, so after outputGPIO(256) the output
pair holds 0 and 0 (and the high byte of the second write lands at the
address past OUTPUT1), and the loopback read returns 0, not 256. -/
theorem outputGPIO_roundtrip_fails :
    ( outputGPIO zeroState 256).2 = true ∧
    (( outputGPIO zeroState 256).1).regs AW9523_REG_OUTPUT1 = 0 ∧
    inputGPIO (loopback (( outputGPIO zeroState 256).1)) = 0 ∧
    ¬ inputGPIO (loopback (( outputGPIO zeroState 256).1)) = 256 := by
  refine ⟨by decide, by decide, by decide, by decide⟩

/-- Claim C3: the spec asserts that enableInterrupt(p, true) stores a 0
bit at position p mod 8 of the interrupt-enable register of p's port
and alters no other bit.  For pin 8 the code keeps bit shift 8 over the
width-2 view based at INTENABLE1, so on an all-ones register file the
INTENABLE1 byte stays 255 (bit 0 is not cleared) while the reserved
byte at address 8 changes from 255 to 254. -/
theorem enableInterrupt_pin8_miswrite :
    onesState.regs 8 = 255 ∧
    (enableInterrupt onesState 8 true).regs AW9523_REG_INTENABLE1 = 255 ∧
    (enableInterrupt onesState 8 true).regs 8 = 254 := by
  refine ⟨by decide, by decide, by decide⟩

/-- Claim C6 counterexample: configureDirection does not write only the
two config registers; with an all-zero register file,
configureDirection(0) changes the INTENABLE0 byte from 0 to 255,
because the second width-2 write based at CONFIG1 spills its high byte
into address CONFIG1 + 1. -/
theorem configureDirection_touches_intenable0 :
    zeroState.regs AW9523_REG_INTENABLE0 = 0 ∧
    ((configureDirection zeroState 0).1).regs AW9523_REG_INTENABLE0 = 255 ∧
    (configureDirection zeroState 0).2 = true := by
  refine ⟨by decide, by decide, by decide⟩

/-- Claim C2 counterexample: in begin, the failure of a configuration
step does not make begin return false.  On a state whose bus refuses
writes to the global control register but acknowledges every other
write and reports the correct identity, the openDrainPort0(false) step
of the sequence fails, yet begin returns true. -/
theorem begin_ignores_config_step_failure :
    (begin gcrNakState).2 = true ∧
    (openDrainPort0 ((configureDirection ((reset gcrNakState).1) 0).1) false).2 = false := by
  refine ⟨by decide, by decide⟩

/-- Claim C10: pinMode with a mode value that is none of OUTPUT, INPUT
and AW9523_LED_MODE takes none of the three conditional branches,
performs no register write, and leaves the device state unchanged. -/
theorem pinMode_unknown_mode_noop (s : BusState) (pin mode : Nat)
    (h1 : mode ≠ OUTPUT) (h2 : mode ≠ INPUT) (h3 : mode ≠ AW9523_LED_MODE) :
    pinMode s pin mode = s := by
  simp [pinMode, h1, h2, h3]

/-- Witness for pinMode_unknown_mode_noop at pin 3 and mode 5. -/
theorem pinMode_unknown_mode_noop_witness : pinMode zeroState 3 5 = zeroState :=
  pinMode_unknown_mode_noop zeroState 3 5 (by decide) (by decide) (by decide)

/-- Claim C8: for every pin in 0..15, analogWrite resolves the
documented non-contiguous dimming register: 0x24 + pin for pins 0-7,
0x20 + (pin - 8) for pins 8-11, 0x2C + (pin - 12) for pins 12-15, and
under this precondition the target address is always defined and the
single-byte write is performed. -/
theorem analogWriteReg_mapping (pin : Nat) (hp : pin ≤ 15) :
    analogWriteReg pin = some (if pin ≤ 7 then 0x24 + pin
      else if pin ≤ 11 then 0x20 + (pin - 8) else 0x2C + (pin - 12)) ∧
    ∀ (s : BusState) (v : Nat), (analogWrite s pin v).isSome = true := by
  constructor
  · interval_cases pin <;> rfl
  · intro s v
    simp only [analogWrite, Option.isSome_map]
    interval_cases pin <;> rfl

/-- Witness for analogWriteReg_mapping: pin 9 resolves to 0x21 (base B
plus offset 1) and the write on pin 9 is defined. -/
theorem analogWriteReg_mapping_witness :
    analogWriteReg 9 = some 33 ∧ (analogWrite zeroState 9 7).isSome = true := by
  have h := analogWriteReg_mapping 9 (by decide)
  exact ⟨by rw [h.1]; decide, h.2 zeroState 7⟩

/-- Claim C5: after configureDirection(m) with both config writes
acknowledged, the stored config0 byte is the complement of the low byte
of m and the stored config1 byte is the complement of the high byte of
m (the first write's spilled high byte at CONFIG1 is overwritten by the
second write's low byte, which carries the same value). -/
theorem configureDirection_stored_values (s : BusState) (m : Nat) (hm : m ≤ 65535)
    (h4 : s.writeOk AW9523_REG_CONFIG0 = true) (h5 : s.writeOk AW9523_REG_CONFIG1 = true) :
    ((configureDirection s m).1).regs AW9523_REG_CONFIG0 = (m ^^^ 65535) &&& 255 ∧
    ((configureDirection s m).1).regs AW9523_REG_CONFIG1 = ((m >>> 8) ^^^ 65535) &&& 255 := by
  have hst := configureDirection_state s m h4 h5
  constructor
  · have h : ((configureDirection s m).1).regs AW9523_REG_CONFIG0 = compl32 m &&& 255 := by
      rw [hst]; simp [setReg, AW9523_REG_CONFIG0]
    rw [h]
    exact compl32_byte m
  · have h : ((configureDirection s m).1).regs AW9523_REG_CONFIG1
        = compl32 (m >>> 8) &&& 255 := by
      rw [hst]; simp [setReg, AW9523_REG_CONFIG1]
    rw [h]
    exact compl32_byte (m >>> 8)

/-- Witness for configureDirection_stored_values at m = 0xABCD on the
all-zero state: config0 becomes the complement of 0xCD and config1 the
complement of 0xAB. -/
theorem configureDirection_stored_values_witness :
    ((configureDirection zeroState 43981).1).regs AW9523_REG_CONFIG0 = 50 ∧
    ((configureDirection zeroState 43981).1).regs AW9523_REG_CONFIG1 = 84 := by
  have h := configureDirection_stored_values zeroState 43981 (by decide) rfl rfl
  exact ⟨by rw [h.1]; decide, by rw [h.2]; decide⟩

/-- Claim C6 as amended: configureDirection(m) writes config0, config1
and the byte at CONFIG1+1 = INTENABLE0, which always receives 0xFF;
every other register is left unchanged. -/
theorem configureDirection_frame_amended (s : BusState) (m : Nat) (hm : m ≤ 65535)
    (h4 : s.writeOk AW9523_REG_CONFIG0 = true) (h5 : s.writeOk AW9523_REG_CONFIG1 = true) :
    ((configureDirection s m).1).regs AW9523_REG_INTENABLE0 = 255 ∧
    ∀ a, a ≠ AW9523_REG_CONFIG0 → a ≠ AW9523_REG_CONFIG1 → a ≠ AW9523_REG_INTENABLE0 →
      ((configureDirection s m).1).regs a = s.regs a := by
  have hst := configureDirection_state s m h4 h5
  have hm8 : m >>> 8 < 256 := by
    rw [Nat.shiftRight_eq_div_pow]
    omega
  constructor
  · have h : ((configureDirection s m).1).regs AW9523_REG_INTENABLE0
        = (compl32 (m >>> 8) >>> 8) &&& 255 := by
      rw [hst]; simp [setReg, AW9523_REG_INTENABLE0]
    rw [h]
    exact compl32_hi_byte _ hm8
  · intro a ha4 ha5 ha6
    simp only [AW9523_REG_CONFIG0, AW9523_REG_CONFIG1, AW9523_REG_INTENABLE0] at ha4 ha5 ha6
    rw [hst]
    simp [setReg, ha4, ha5, ha6]

/-- Witness for configureDirection_frame_amended at m = 0 on the
all-zero state: INTENABLE0 becomes 255 and the GCR byte is untouched. -/
theorem configureDirection_frame_amended_witness :
    ((configureDirection zeroState 0).1).regs AW9523_REG_INTENABLE0 = 255 ∧
    ((configureDirection zeroState 0).1).regs 17 = zeroState.regs 17 := by
  have h := configureDirection_frame_amended zeroState 0 (by decide) rfl rfl
  exact ⟨h.1, h.2 17 (by decide) (by decide) (by decide)⟩

/-- Claim C9: openDrainPort0(true) clears bit 4 of the global control
register (the inverted encoding of open-drain enabled), preserves every
other bit of that byte, and leaves every other register — in particular
everything associated with port 1 — untouched. -/
theorem openDrainPort0_bit4_frame (s : BusState) (hw : s.writeOk AW9523_REG_GCR = true) :
    Nat.testBit (((openDrainPort0 s true).1).regs AW9523_REG_GCR) 4 = false ∧
    (∀ i, i < 8 → i ≠ 4 → Nat.testBit (((openDrainPort0 s true).1).regs AW9523_REG_GCR) i
        = Nat.testBit (s.regs AW9523_REG_GCR) i) ∧
    ∀ a, a ≠ AW9523_REG_GCR → ((openDrainPort0 s true).1).regs a = s.regs a := by
  obtain ⟨hbit, hframe⟩ := bitsWrite1_bits s 17 4 0 (by decide) hw
  refine ⟨?_, ?_, ?_⟩
  · have h := hbit 4 (by omega)
    simp only [if_pos rfl] at h
    simpa using h
  · intro i hi hi4
    have h := hbit i hi
    rw [if_neg hi4] at h
    exact h
  · exact hframe

/-- Witness for openDrainPort0_bit4_frame on the all-ones state: bit 4
of GCR is cleared, bit 3 survives, and the byte at address 18 is
untouched. -/
theorem openDrainPort0_bit4_frame_witness :
    Nat.testBit (((openDrainPort0 onesState true).1).regs AW9523_REG_GCR) 4 = false ∧
    Nat.testBit (((openDrainPort0 onesState true).1).regs AW9523_REG_GCR) 3
      = Nat.testBit (onesState.regs AW9523_REG_GCR) 3 ∧
    ((openDrainPort0 onesState true).1).regs 18 = onesState.regs 18 := by
  have h := openDrainPort0_bit4_frame onesState rfl
  exact ⟨h.1, h.2.1 3 (by decide) (by decide), h.2.2 18 (by decide)⟩

/-- Claim C7: when transport open and the soft-reset write succeed but
the identity register holds anything other than 0x23, begin returns
false and performs no further write: every register except the
soft-reset address keeps its prior value. -/
theorem begin_id_mismatch_aborts (s : BusState) (hd : s.devOk = true)
    (hw : s.writeOk AW9523_REG_SOFTRESET = true)
    (hid : regRead s ⟨AW9523_REG_CHIPID, 1⟩ ≠ 0x23) :
    (begin s).2 = false ∧
    ∀ a, a ≠ AW9523_REG_SOFTRESET → ((begin s).1).regs a = s.regs a := by
  have hw' : s.writeOk 127 = true := hw
  have hid' : ¬ (s.regs 16 &&& 255 = 35) := by
    simpa [regRead, AW9523_REG_CHIPID] using hid
  constructor
  · simp [begin, reset, regWrite, regRead, setReg, AW9523_REG_SOFTRESET,
      AW9523_REG_CHIPID, hd, hw', hid']
  · intro a ha
    simp only [AW9523_REG_SOFTRESET] at ha
    simp [begin, reset, regWrite, regRead, setReg, AW9523_REG_SOFTRESET,
      AW9523_REG_CHIPID, hd, hw', hid', ha]

/-- Witness for begin_id_mismatch_aborts on the all-zero state (whose
identity byte is 0): begin fails and the CONFIG0 byte is untouched. -/
theorem begin_id_mismatch_aborts_witness :
    (begin zeroState).2 = false ∧
    ((begin zeroState).1).regs AW9523_REG_CONFIG0 = zeroState.regs AW9523_REG_CONFIG0 := by
  have h := begin_id_mismatch_aborts zeroState rfl rfl (by decide)
  exact ⟨h.1, h.2 AW9523_REG_CONFIG0 (by decide)⟩

/-- Claim C2 as amended: begin returns true exactly when transport
open succeeds, the soft-reset write is acknowledged, and the identity
read yields 0x23; the results of the three configuration steps are
discarded and never affect the returned value. -/
theorem begin_result_characterization (s : BusState) :
    (begin s).2 = (s.devOk && s.writeOk AW9523_REG_SOFTRESET
      && decide (regRead s ⟨AW9523_REG_CHIPID, 1⟩ = 0x23)) := by
  cases hd : s.devOk with
  | false => simp [begin, hd]
  | true =>
    cases hw : s.writeOk AW9523_REG_SOFTRESET with
    | false =>
      have hw' : s.writeOk 127 = false := hw
      simp [begin, reset, regWrite, AW9523_REG_SOFTRESET, hd, hw, hw']
    | true =>
      have hw' : s.writeOk 127 = true := hw
      by_cases hid : s.regs 16 &&& 255 = 35
      · simp [begin, reset, regWrite, regRead, setReg, AW9523_REG_SOFTRESET,
          AW9523_REG_CHIPID, hd, hw, hw', hid]
      · simp [begin, reset, regWrite, regRead, setReg, AW9523_REG_SOFTRESET,
          AW9523_REG_CHIPID, hd, hw, hw', hid]

/-- Claim C4: on the loopback model, digitalWrite(p, v) followed by
digitalRead(p) returns v for every pin p in 0..15, and digitalWrite
leaves the recorded output bits of every other pin unchanged. -/
theorem digitalWrite_digitalRead_roundtrip (s : BusState) (p : Nat) (v : Bool)
    (hp : p ≤ 15) (hw : s.writeOk AW9523_REG_OUTPUT0 = true) :
    digitalRead (loopback (digitalWrite s p v)) p = v ∧
    ∀ q, q ≤ 15 → q ≠ p → outputBit (digitalWrite s p v) q = outputBit s q := by
  have hbv : (if v then (1 : Nat) else 0) < 2 := by cases v <;> decide
  have hw2 : s.writeOk 2 = true := hw
  obtain ⟨hA, hB, hF⟩ := bitsWrite2_bits s 2 p (if v then 1 else 0) hbv hw2
  simp only [show (2 : Nat) + 1 = 3 from rfl] at hB
  have ht : digitalWrite s p v = (bitsWrite s ⟨2, 2⟩ 1 p (if v then 1 else 0)).1 := rfl
  have hdv : decide ((if v then (1 : Nat) else 0) = 1) = v := by cases v <;> decide
  have hlb0 : (loopback (digitalWrite s p v)).regs 0 = (digitalWrite s p v).regs 2 := by
    simp [loopback, AW9523_REG_INPUT0, AW9523_REG_INPUT1, AW9523_REG_OUTPUT0]
  have hlb1 : (loopback (digitalWrite s p v)).regs 1 = (digitalWrite s p v).regs 3 := by
    simp [loopback, AW9523_REG_INPUT0, AW9523_REG_INPUT1, AW9523_REG_OUTPUT1]
  have hlb2 : (loopback (digitalWrite s p v)).regs 2 = (digitalWrite s p v).regs 2 := by
    simp [loopback, AW9523_REG_INPUT0, AW9523_REG_INPUT1]
  constructor
  · by_cases hp8 : p ≥ 8
    · have hread : digitalRead (loopback (digitalWrite s p v)) p
          = (bitsRead (loopback (digitalWrite s p v)) ⟨1, 2⟩ 1 (p - 8) != 0) := by
        simp [digitalRead, hp8, AW9523_REG_INPUT1]
      rw [hread, bitsRead_bit, regRead2, show (1 : Nat) + 1 = 2 from rfl]
      rw [hlb1, hlb2, ht, testBit_assemble_lo _ _ _ (by omega), hB (p - 8) (by omega),
        if_pos (show 8 + (p - 8) = p by omega), hdv]
    · have hread : digitalRead (loopback (digitalWrite s p v)) p
          = (bitsRead (loopback (digitalWrite s p v)) ⟨0, 2⟩ 1 p != 0) := by
        simp [digitalRead, hp8, AW9523_REG_INPUT0]
      rw [hread, bitsRead_bit, regRead2, show (0 : Nat) + 1 = 1 from rfl]
      rw [hlb0, hlb1, ht, testBit_assemble_lo _ _ _ (by omega), hA p (by omega),
        if_pos rfl, hdv]
  · intro q hq hqp
    have ho : outputBit (digitalWrite s p v) q
        = Nat.testBit (regRead (digitalWrite s p v) ⟨2, 2⟩) q := rfl
    have ho2 : outputBit s q = Nat.testBit (regRead s ⟨2, 2⟩) q := rfl
    rw [ho, ho2, ht, regRead2, regRead2, show (2 : Nat) + 1 = 3 from rfl]
    by_cases hq8 : q < 8
    · rw [testBit_assemble_lo _ _ _ hq8, testBit_assemble_lo _ _ _ hq8, hA q hq8,
        if_neg hqp, regRead2, show (2 : Nat) + 1 = 3 from rfl,
        testBit_assemble_lo _ _ _ hq8]
    · have hq8' : q - 8 < 8 := by omega
      have hqq : 8 + (q - 8) = q := by omega
      rw [← hqq, testBit_assemble_hi _ _ _ hq8', testBit_assemble_hi _ _ _ hq8',
        hB (q - 8) hq8', if_neg (show ¬ (8 + (q - 8) = p) by omega), regRead2,
        show (2 : Nat) + 1 = 3 from rfl, testBit_assemble_hi _ _ _ hq8']

/-- Witness for digitalWrite_digitalRead_roundtrip at pin 11 with value
true on the all-zero state, with non-interference checked at pin 3. -/
theorem digitalWrite_digitalRead_roundtrip_witness :
    digitalRead (loopback (digitalWrite zeroState 11 true)) 11 = true ∧
    outputBit (digitalWrite zeroState 11 true) 3 = outputBit zeroState 3 := by
  have h := digitalWrite_digitalRead_roundtrip zeroState 11 true (by decide) rfl
  exact ⟨h.1, h.2 3 (by decide) (by decide)⟩

end AW9523
